import Mathlib

/-!
# Weather micro station: the display engine of `src/weather_display.cpp`

A shallow embedding of the `WeatherDisplay` class: the scrolling message
(double buffer `Wmsg` / `WmsgBuffer`, animation cursor `ani`), the scroll strip
part of `draw`, the brightness buttons and the frame counter.

Conventions of the embedding

* A C string is the list of its characters (terminator excluded); an array of
  `n` chars holds a string of length at most `n - 1`.
* `strcpy` has no bound in C.  Writing past the destination array is modelled
  as failure: every function that calls `strcpy` returns an `Option`, and
  `none` stands for a buffer overrun.
* `unsigned long` is 32 bits wide on the target; the values are naturals and
  subtraction and increment are taken modulo `2 ^ 32`.
* `int` values (`ani`, `displayBrightness`, `currentMessageWidth`) are integers
  without bound.  Signed overflow is undefined in C and is outside the model;
  it needs a cursor, a width or a brightness step of the order of `2 ^ 31`.
* `float` values are not modelled.  The two float fields that feed the scrolling
  message have an abstract type `F` and their `%.1f` rendering is a parameter.
  The quotient `frameCount / 10.0f` is an exact rational.
* The header `weather_display.h` is not among the sources.  Its constants and
  array sizes are the fields of `Header`.
* Sprites, fonts, labels, the two panels and their scratch buffers are output
  of `draw` that nothing here reads; they are left out, except the strings
  drawn on the scroll strip.  The float members are left out as well.
-/

namespace WeatherStation

/-- Constants and array sizes that `weather_display.cpp` takes from the header
`weather_display.h`. -/
structure Header where
  ANIMATION_START_POSITION : Int
  DEFAULT_BRIGHTNESS : Int
  BRIGHTNESS_STEP : Int
  BUTTON_DEBOUNCE_MS : Nat
  /-- The value of `sizeof(Wmsg)`. -/
  sizeofWmsg : Nat
  /-- The value of `sizeof(WmsgBuffer)`. -/
  sizeofWmsgBuffer : Nat
  /-- The value of `sizeof(weatherData.scrollingMessage)`. -/
  sizeofScrollingMessage : Nat
  deriving DecidableEq, Repr

/-- Number of values of a 32 bit `unsigned long`. -/
def ULONG_RANGE : Nat := 4294967296

/-- Subtraction of two `unsigned long` values. -/
def usub (a b : Nat) : Nat :=
  (a % ULONG_RANGE + ULONG_RANGE - b % ULONG_RANGE) % ULONG_RANGE

/-- Increment of an `unsigned long` value. -/
def uinc (a : Nat) : Nat := (a + 1) % ULONG_RANGE

/-- The fields of `weatherData` that `updateScrollingMessage` reads and writes. -/
structure WeatherData (F : Type) where
  description : List Char
  visibility : F
  windSpeed : F
  lastUpdated : List Char
  scrollingMessage : List Char
  deriving DecidableEq, Repr

/-- The state of a `WeatherDisplay` object together with the three static
counters of the class and the duty values written to PWM channel 0 (newest
first). -/
structure WeatherDisplay (F : Type) where
  ani : Int
  timePased : Int
  displayBrightness : Int
  lastButtonPress : Nat
  messageUpdatePending : Bool
  currentMessageWidth : Int
  messageWidthCached : Bool
  Wmsg : List Char
  WmsgBuffer : List Char
  weatherData : WeatherData F
  frameCount : Nat
  lastPerformanceReport : Nat
  lastFrameTime : Nat
  ledcWrite : List Int
  deriving DecidableEq, Repr

/-- The call `strcpy(dest, src)` for a destination array of `size` chars: the
new content of the destination, or `none` when `src` and its terminator do not
fit. -/
def strcpy (size : Nat) (src : List Char) : Option (List Char) :=
  if src.length < size then some src else none

/-- The call `snprintf(dest, size, ...)` where `text` is the complete formatted
output: at most `size - 1` characters are stored; with `size = 0` nothing is
written and the destination keeps `old`. -/
def snprintf (size : Nat) (old text : List Char) : List Char :=
  if size = 0 then old else text.take (size - 1)

/-- The complete output of the format string of `updateScrollingMessage`;
`fmt1` renders a float with `%.1f`. -/
def scrollingFormat {F : Type} (fmt1 : F → List Char) (w : WeatherData F) : List Char :=
  "... ".toList ++ w.description ++ ", visibility is ".toList ++ fmt1 w.visibility
    ++ "km/h, wind of ".toList ++ fmt1 w.windSpeed
    ++ "km/h, last updated at ".toList ++ w.lastUpdated ++ " ...".toList

/-- The text both buffers are initialised with in the constructor. -/
def defaultMessage : List Char :=
  "... clear sky, visibility is 10.0km/h, wind of 5.0km/h, last updated at 12:00:00 ...".toList

namespace WeatherDisplay

variable {F : Type}

/-- `WeatherDisplay::updateScrollingMessage` (lines 189-200). -/
def updateScrollingMessage (H : Header) (fmt1 : F → List Char) (s : WeatherDisplay F) :
    Option (WeatherDisplay F) :=
  let msg := snprintf H.sizeofScrollingMessage s.weatherData.scrollingMessage
    (scrollingFormat fmt1 s.weatherData)
  let s1 := { s with weatherData := { s.weatherData with scrollingMessage := msg } }
  match strcpy H.sizeofWmsgBuffer s1.weatherData.scrollingMessage with
  | none => none
  | some b => some { s1 with WmsgBuffer := b, messageUpdatePending := true }

/-- `WeatherDisplay::updateScrollingBuffer` (lines 202-208). -/
def updateScrollingBuffer (H : Header) (s : WeatherDisplay F) : Option (WeatherDisplay F) :=
  match strcpy H.sizeofWmsg s.weatherData.scrollingMessage with
  | none => none
  | some a =>
    match strcpy H.sizeofWmsgBuffer s.weatherData.scrollingMessage with
    | none => none
    | some b =>
      some { s with Wmsg := a, WmsgBuffer := b, messageUpdatePending := true,
                    messageWidthCached := false }

/-- `WeatherDisplay::updateData` (lines 210-231). -/
def updateData (H : Header) (s : WeatherDisplay F) : Option (WeatherDisplay F) :=
  let s1 := { s with ani := s.ani - 2 }
  let resetPoint : Int := -400
  if s1.ani < resetPoint then
    let s2 := { s1 with ani := H.ANIMATION_START_POSITION }
    if s2.messageUpdatePending = true then
      match strcpy H.sizeofWmsg s2.WmsgBuffer with
      | none => none
      | some a =>
        some { s2 with Wmsg := a, messageUpdatePending := false, currentMessageWidth := 0,
                       messageWidthCached := false }
    else some s2
  else some s1

/-- The constructor `WeatherDisplay::WeatherDisplay` (lines 12-43), the static
initialisers of lines 8-10 included.  `wd0` is the initial content of the
member `weatherData`, which the header decides. -/
def ctor (H : Header) (fmt1 : F → List Char) (wd0 : WeatherData F) :
    Option (WeatherDisplay F) :=
  let s0 : WeatherDisplay F :=
    { ani := H.ANIMATION_START_POSITION, timePased := 0,
      displayBrightness := H.DEFAULT_BRIGHTNESS, lastButtonPress := 0,
      messageUpdatePending := false, currentMessageWidth := 0,
      messageWidthCached := false, Wmsg := [], WmsgBuffer := [], weatherData := wd0,
      frameCount := 0, lastPerformanceReport := 0, lastFrameTime := 0, ledcWrite := [] }
  match strcpy H.sizeofWmsg defaultMessage with
  | none => none
  | some a =>
    match strcpy H.sizeofWmsgBuffer defaultMessage with
    | none => none
    | some b => updateScrollingMessage H fmt1 { s0 with Wmsg := a, WmsgBuffer := b }

/-- `WeatherDisplay::initializeBrightnessControl` (lines 107-116). -/
def initializeBrightnessControl (H : Header) (s : WeatherDisplay F) : WeatherDisplay F :=
  { s with displayBrightness := H.DEFAULT_BRIGHTNESS }

/-- `WeatherDisplay::begin` (lines 45-79): the backlight duty is written, the
message is staged again and the brightness control is initialised. -/
def begin (H : Header) (fmt1 : F → List Char) (s : WeatherDisplay F) :
    Option (WeatherDisplay F) :=
  let s1 := { s with ledcWrite := H.DEFAULT_BRIGHTNESS :: s.ledcWrite }
  match updateScrollingMessage H fmt1 s1 with
  | none => none
  | some s2 => some (initializeBrightnessControl H s2)

/-- `WeatherDisplay::handleBrightnessButtons` (lines 118-151).  `currentTime` is
the value of `millis()`, `keyLow` and `bootLow` say whether `BUTTON_KEY` and
`BUTTON_BOOT` read `LOW`. -/
def handleBrightnessButtons (H : Header) (currentTime : Nat) (keyLow bootLow : Bool)
    (s : WeatherDisplay F) : WeatherDisplay F :=
  if usub currentTime s.lastButtonPress < H.BUTTON_DEBOUNCE_MS then s
  else
    let buttonPressed := false
    let r1 : WeatherDisplay F × Bool :=
      if keyLow = true ∧ s.displayBrightness < 255 then
        let b := min (s.displayBrightness + H.BRIGHTNESS_STEP) 255
        ({ s with displayBrightness := b, ledcWrite := b :: s.ledcWrite }, true)
      else (s, buttonPressed)
    let r2 : WeatherDisplay F × Bool :=
      if bootLow = true ∧ r1.1.displayBrightness > 10 then
        let b := max (r1.1.displayBrightness - H.BRIGHTNESS_STEP) 10
        ({ r1.1 with displayBrightness := b, ledcWrite := b :: r1.1.ledcWrite }, true)
      else r1
    if r2.2 = true then { r2.1 with lastButtonPress := currentTime } else r2.1

end WeatherDisplay

/-- The line printed by `reportPerformanceStats` (the free heap is left out). -/
structure PerfReport where
  fps : Rat
  frameCount : Nat
  deriving DecidableEq, Repr

/-- What one call of `draw` does outside the object: the strings handed to
`errSprite.textWidth`, the `errSprite.drawString` calls (string and x offset,
in order) and the performance report, if one is printed. -/
structure Frame where
  measured : List (List Char)
  strip : List (List Char × Int)
  report : Option PerfReport
  deriving DecidableEq, Repr

namespace WeatherDisplay

variable {F : Type}

/-- `WeatherDisplay::reportPerformanceStats` (lines 440-445). -/
def reportPerformanceStats (s : WeatherDisplay F) : WeatherDisplay F × PerfReport :=
  let fps : Rat := (s.frameCount : Rat) / 10
  ({ s with frameCount := 0 }, { fps := fps, frameCount := s.frameCount })

/-- `WeatherDisplay::draw` (lines 388-437).  `textWidth` is
`errSprite.textWidth`, `currentTime` the value of `millis()`. -/
def draw (textWidth : List Char → Int) (currentTime : Nat) (s : WeatherDisplay F) :
    WeatherDisplay F × Frame :=
  let remeasure : Bool := !s.messageWidthCached || s.currentMessageWidth == 0
  let s1 :=
    if remeasure = true then
      { s with currentMessageWidth := textWidth s.Wmsg, messageWidthCached := true }
    else s
  let measured : List (List Char) := if remeasure = true then [s.Wmsg] else []
  let spacing : Int := 80
  let totalWidth : Int := s1.currentMessageWidth + spacing
  let strip : List (List Char × Int) :=
    if s1.ani ≥ 0 then
      [(s1.Wmsg, s1.ani), (s1.Wmsg, s1.ani + totalWidth)]
    else if s1.ani + totalWidth > -s1.currentMessageWidth then
      [(s1.Wmsg, s1.ani), (s1.Wmsg, s1.ani + totalWidth)]
    else
      [(s1.Wmsg, s1.ani)]
  let s2 := { s1 with frameCount := uinc s1.frameCount }
  if usub currentTime s2.lastPerformanceReport ≥ 10000 then
    let r := reportPerformanceStats s2
    ({ r.1 with lastPerformanceReport := currentTime, lastFrameTime := currentTime },
     { measured := measured, strip := strip, report := some r.2 })
  else
    ({ s2 with lastFrameTime := currentTime },
     { measured := measured, strip := strip, report := none })

/-- The state after `k` calls of `updateData`. -/
def ticks (H : Header) : Nat → WeatherDisplay F → Option (WeatherDisplay F)
  | 0, s => some s
  | k + 1, s => (ticks H k s).bind (updateData H)

/-- Calls of `draw` at the given times, one after the other: the final state and
the frames in order. -/
def draws (textWidth : List Char → Int) : List Nat → WeatherDisplay F →
    WeatherDisplay F × List Frame
  | [], s => (s, [])
  | t :: ts, s =>
    let r := draw textWidth t s
    let rest := draws textWidth ts r.1
    (rest.1, r.2 :: rest.2)

/-- The draw times, in ms, of the first 10 seconds at `R` draws per second, the
draw at 10000 ms excluded: `i * 1000 / R` for `i` from 1 to `10 * R - 1`. -/
def fixedRate (R : Nat) : List Nat := (List.range (10 * R - 1)).map (fun i => (i + 1) * 1000 / R)

/-- The number of `updateData` calls a cursor `c` at or above the reset point
can take before the next call wraps. -/
def ticksBeforeWrap (c : Int) : Nat := ((c + 400) / 2).toNat

/-- An `updateData` call on `s` wraps when the decremented cursor is below the
reset point. -/
def wraps (s : WeatherDisplay F) : Prop := s.ani - 2 < -400

instance (s : WeatherDisplay F) : Decidable (wraps s) := by
  unfold wraps; infer_instance

end WeatherDisplay

/-- The operations on the display.  `fetch` is the write of the fetch code,
which lives outside this file, to the member `weatherData`; it keeps the
scratch field `scrollingMessage`. -/
inductive Op (F : Type) where
  | begin
  | updateScrollingMessage
  | updateScrollingBuffer
  | updateData
  | draw (currentTime : Nat)
  | handleBrightnessButtons (currentTime : Nat) (keyLow bootLow : Bool)
  | fetch (wd : WeatherData F)
  deriving DecidableEq, Repr

namespace WeatherDisplay

variable {F : Type}

/-- One operation on the display. -/
def step (H : Header) (fmt1 : F → List Char) (textWidth : List Char → Int) :
    Op F → WeatherDisplay F → Option (WeatherDisplay F)
  | Op.begin, s => begin H fmt1 s
  | Op.updateScrollingMessage, s => updateScrollingMessage H fmt1 s
  | Op.updateScrollingBuffer, s => updateScrollingBuffer H s
  | Op.updateData, s => updateData H s
  | Op.draw t, s => some (draw textWidth t s).1
  | Op.handleBrightnessButtons t k b, s => some (handleBrightnessButtons H t k b s)
  | Op.fetch wd, s =>
    some { s with weatherData :=
                    { wd with scrollingMessage := s.weatherData.scrollingMessage } }

/-- A sequence of operations, left to right. -/
def run (H : Header) (fmt1 : F → List Char) (textWidth : List Char → Int) :
    List (Op F) → WeatherDisplay F → Option (WeatherDisplay F)
  | [], s => some s
  | op :: ops, s => (step H fmt1 textWidth op s).bind (run H fmt1 textWidth ops)

/-- The states the display can be in: those a sequence of operations reaches
from a constructed object. -/
def Reachable (H : Header) (fmt1 : F → List Char) (textWidth : List Char → Int)
    (s : WeatherDisplay F) : Prop :=
  ∃ wd0 s0 ops, ctor H fmt1 wd0 = some s0 ∧ run H fmt1 textWidth ops s0 = some s

/-- The span `[x, x + w]` of a copy drawn at offset `x` meets the visible strip
`[0, W]`. -/
def spanMeetsStrip (x w W : Int) : Prop := x ≤ W ∧ 0 ≤ x + w

instance (x w W : Int) : Decidable (spanMeetsStrip x w W) := by
  unfold spanMeetsStrip; infer_instance

end WeatherDisplay

/-! ## Concrete data for the instances of the theorems -/

/-- A text measure for the instances: 6 pixels per character. -/
def sixPerChar (t : List Char) : Int := 6 * (t.length : Int)

/-- A header with plausible values: start position 320, 256 byte buffers. -/
def sampleHeader : Header :=
  { ANIMATION_START_POSITION := 320, DEFAULT_BRIGHTNESS := 128, BRIGHTNESS_STEP := 25,
    BUTTON_DEBOUNCE_MS := 200, sizeofWmsg := 256, sizeofWmsgBuffer := 256,
    sizeofScrollingMessage := 256 }

/-- The header of the 201 tick scenario: start position 0. -/
def zeroStartHeader : Header := { sampleHeader with ANIMATION_START_POSITION := 0 }

/-- Weather data matching the default message; the float fields carry their
`%.1f` rendering, so the renderer is the identity. -/
def clearSky : WeatherData (List Char) :=
  { description := "clear sky".toList, visibility := "10.0".toList,
    windSpeed := "5.0".toList, lastUpdated := "12:00:00".toList, scrollingMessage := [] }

/-- Weather data of a later fetch. -/
def lightRain : WeatherData (List Char) :=
  { description := "light rain".toList, visibility := "8.0".toList,
    windSpeed := "12.5".toList, lastUpdated := "12:10:00".toList, scrollingMessage := [] }

/-- A state in the middle of a scroll, nothing pending, with `lightRain` fetched. -/
def sampleState : WeatherDisplay (List Char) :=
  { ani := 100, timePased := 0, displayBrightness := 128, lastButtonPress := 0,
    messageUpdatePending := false, currentMessageWidth := 0, messageWidthCached := false,
    Wmsg := defaultMessage, WmsgBuffer := defaultMessage, weatherData := lightRain,
    frameCount := 0, lastPerformanceReport := 0, lastFrameTime := 0, ledcWrite := [] }

/-- The state after the object was constructed with `clearSky`, `lightRain` was
fetched and `updateScrollingMessage` was called: the new message is pending,
the cursor is at the start position, no `updateData` call has happened. -/
def stagedRain : WeatherDisplay (List Char) :=
  { sampleState with
    ani := 320, messageUpdatePending := true, WmsgBuffer := scrollingFormat id lightRain,
    weatherData := { lightRain with scrollingMessage := scrollingFormat id lightRain } }

/-- Weather data whose description is the text of the 201 tick scenario. -/
def sunny : WeatherData (List Char) :=
  { description := "Sunny, mild breeze".toList, visibility := "10.0".toList,
    windSpeed := "5.0".toList, lastUpdated := "12:00:00".toList, scrollingMessage := [] }

/-- The state of the 201 tick scenario before staging: cursor 0, the default
message active, `sunny` fetched. -/
def sunnyState : WeatherDisplay (List Char) :=
  { sampleState with ani := 0, weatherData := sunny }

/-- The message `updateScrollingMessage` formats from `sunny`. -/
def sunnyMessage : List Char :=
  "... Sunny, mild breeze, visibility is 10.0km/h, wind of 5.0km/h, last updated at 12:00:00 ...".toList

/-- A state with a cached width of 100 pixels and the cursor at `c`. -/
def cachedAt (c : Int) : WeatherDisplay (List Char) :=
  { sampleState with ani := c, currentMessageWidth := 100, messageWidthCached := true }

/-- A state whose next `updateData` call wraps, with the empty text pending. -/
def emptyPending : WeatherDisplay (List Char) :=
  { sampleState with ani := -400, WmsgBuffer := [], messageUpdatePending := true }

/-- The state after that call: the empty text is active, the width not cached. -/
def emptyActive : WeatherDisplay (List Char) :=
  { sampleState with ani := 320, Wmsg := [], WmsgBuffer := [] }

/-! ## Lemmas on `updateData` and on runs of it -/

namespace WeatherDisplay

variable {F : Type}

theorem updateData_noWrap (H : Header) (s : WeatherDisplay F) (h : ¬ wraps s) :
    updateData H s = some { s with ani := s.ani - 2 } := by
  unfold wraps at h
  simp only [updateData]
  rw [if_neg h]

theorem updateData_wrap_pending (H : Header) (s : WeatherDisplay F) (h : wraps s)
    (hp : s.messageUpdatePending = true) (hfit : s.WmsgBuffer.length < H.sizeofWmsg) :
    updateData H s =
      some { s with ani := H.ANIMATION_START_POSITION, Wmsg := s.WmsgBuffer,
                    messageUpdatePending := false, currentMessageWidth := 0,
                    messageWidthCached := false } := by
  unfold wraps at h
  simp only [updateData, strcpy]
  rw [if_pos h, if_pos hp, if_pos hfit]

theorem updateData_wrap_idle (H : Header) (s : WeatherDisplay F) (h : wraps s)
    (hp : s.messageUpdatePending = false) :
    updateData H s = some { s with ani := H.ANIMATION_START_POSITION } := by
  unfold wraps at h
  simp only [updateData]
  rw [if_pos h, if_neg (by simp [hp])]

theorem ticks_succ (H : Header) (k : Nat) (s : WeatherDisplay F) :
    ticks H (k + 1) s = (ticks H k s).bind (updateData H) := rfl

/-- As long as the cursor stays at or above the reset point, `k` calls of
`updateData` only move the cursor, by `2 * k`. -/
theorem ticks_noWrap (H : Header) (s : WeatherDisplay F) (k : Nat)
    (h : -400 ≤ s.ani - 2 * (k : Int)) :
    ticks H k s = some { s with ani := s.ani - 2 * (k : Int) } := by
  induction k with
  | zero => simp [ticks]
  | succ n ih =>
    have hn : -400 ≤ s.ani - 2 * (n : Int) := by push_cast at h; omega
    rw [ticks_succ, ih hn, Option.some_bind,
      updateData_noWrap H _ (by unfold wraps; push_cast at h; simp only; omega)]
    congr 2
    push_cast
    ring

theorem ticksBeforeWrap_spec (c : Int) (h : -400 ≤ c) :
    -400 ≤ c - 2 * (ticksBeforeWrap c : Int) ∧ c - 2 * (ticksBeforeWrap c : Int) - 2 < -400 := by
  unfold ticksBeforeWrap
  omega

/-- One call of `updateData` on a state whose pending text fits the active
buffer: it returns, the cursor moves as the branch says, and the pending
buffer is not touched. -/
theorem updateData_total (H : Header) (s : WeatherDisplay F)
    (hfit : s.messageUpdatePending = true → s.WmsgBuffer.length < H.sizeofWmsg) :
    ∃ s1, updateData H s = some s1 ∧ (¬ wraps s → s1.ani = s.ani - 2)
      ∧ (wraps s → s1.ani = H.ANIMATION_START_POSITION)
      ∧ s1.WmsgBuffer = s.WmsgBuffer
      ∧ (s1.messageUpdatePending = true → s.messageUpdatePending = true) := by
  by_cases hw : wraps s
  · cases hp : s.messageUpdatePending with
    | true =>
      refine ⟨_, updateData_wrap_pending H s hw hp (hfit hp), ?_, ?_, rfl, ?_⟩ <;> simp [hw]
    | false =>
      refine ⟨_, updateData_wrap_idle H s hw hp, ?_, ?_, rfl, ?_⟩ <;> simp [hw, hp]
  · refine ⟨_, updateData_noWrap H s hw, ?_, ?_, rfl, ?_⟩ <;> simp [hw]

/-- A returning call of `updateData` leaves the active buffer as it was or
sets it to the pending buffer. -/
theorem updateData_Wmsg (H : Header) (s s1 : WeatherDisplay F)
    (h : updateData H s = some s1) : s1.Wmsg = s.Wmsg ∨ s1.Wmsg = s.WmsgBuffer := by
  simp only [updateData, strcpy] at h
  split_ifs at h <;> (injection h with h; subst h; simp)

/-- When the pending buffer fits the active one, every run of `updateData`
calls returns; the pending buffer is as before and the active buffer is as
before or holds the pending text. -/
theorem ticks_promote_fits (H : Header) (u : WeatherDisplay F)
    (hfit : u.WmsgBuffer.length < H.sizeofWmsg) (k : Nat) :
    ∃ sk, ticks H k u = some sk ∧ sk.WmsgBuffer = u.WmsgBuffer
      ∧ (sk.Wmsg = u.Wmsg ∨ sk.Wmsg = u.WmsgBuffer) := by
  induction k with
  | zero => exact ⟨u, rfl, rfl, Or.inl rfl⟩
  | succ n ih =>
    obtain ⟨sn, hn, hb, hW⟩ := ih
    obtain ⟨t, ht, _, _, hc, _⟩ := updateData_total H sn (fun _ => by rw [hb]; exact hfit)
    refine ⟨t, by rw [ticks_succ, hn, Option.some_bind, ht], by rw [hc, hb], ?_⟩
    rcases updateData_Wmsg H sn t ht with hw | hw
    · rw [hw]; exact hW
    · rw [hw, hb]; exact Or.inr rfl

/-- Any run of `updateData` calls from a state with the cursor in range and a
pending text that fits returns, and keeps the cursor in range. -/
theorem ticks_total (H : Header) (s : WeatherDisplay F)
    (hstart : -400 ≤ H.ANIMATION_START_POSITION)
    (hlo : -400 ≤ s.ani) (hhi : s.ani ≤ H.ANIMATION_START_POSITION)
    (hfit : s.messageUpdatePending = true → s.WmsgBuffer.length < H.sizeofWmsg) (k : Nat) :
    ∃ sk, ticks H k s = some sk ∧ -400 ≤ sk.ani ∧ sk.ani ≤ H.ANIMATION_START_POSITION
      ∧ (sk.messageUpdatePending = true → sk.WmsgBuffer.length < H.sizeofWmsg) := by
  induction k with
  | zero => exact ⟨s, rfl, hlo, hhi, hfit⟩
  | succ n ih =>
    obtain ⟨sn, hn, h1, h2, h3⟩ := ih
    obtain ⟨t, ht, ha, hb, hc, hd⟩ := updateData_total H sn h3
    refine ⟨t, ?_, ?_, ?_, ?_⟩
    · rw [ticks_succ, hn, Option.some_bind, ht]
    · by_cases hw : wraps sn
      · rw [hb hw]; exact hstart
      · rw [ha hw]; unfold wraps at hw; omega
    · by_cases hw : wraps sn
      · rw [hb hw]
      · rw [ha hw]; omega
    · intro hp
      rw [hc]
      exact h3 (hd hp)

/-- Staging a text that fits the scratch field and the pending buffer. -/
theorem updateScrollingMessage_fits (H : Header) (fmt1 : F → List Char) (s : WeatherDisplay F)
    (h1 : (scrollingFormat fmt1 s.weatherData).length < H.sizeofScrollingMessage)
    (h2 : (scrollingFormat fmt1 s.weatherData).length < H.sizeofWmsgBuffer) :
    updateScrollingMessage H fmt1 s =
      some { s with
        weatherData :=
          { s.weatherData with scrollingMessage := scrollingFormat fmt1 s.weatherData },
        WmsgBuffer := scrollingFormat fmt1 s.weatherData,
        messageUpdatePending := true } := by
  have hne : ¬ H.sizeofScrollingMessage = 0 := by omega
  have htake : List.take (H.sizeofScrollingMessage - 1) (scrollingFormat fmt1 s.weatherData)
      = scrollingFormat fmt1 s.weatherData := List.take_of_length_le (by omega)
  simp only [updateScrollingMessage, snprintf, strcpy, if_neg hne, htake, if_pos h2]

/-- What a returning call of `updateScrollingMessage` has done: the scratch
field holds the truncated text, which fits the pending buffer and was copied
there, and the pending flag is set. -/
theorem updateScrollingMessage_some (H : Header) (fmt1 : F → List Char)
    (s s1 : WeatherDisplay F) (h : updateScrollingMessage H fmt1 s = some s1) :
    (snprintf H.sizeofScrollingMessage s.weatherData.scrollingMessage
        (scrollingFormat fmt1 s.weatherData)).length < H.sizeofWmsgBuffer
    ∧ s1 = { s with
        weatherData :=
          { s.weatherData with
            scrollingMessage := snprintf H.sizeofScrollingMessage
              s.weatherData.scrollingMessage (scrollingFormat fmt1 s.weatherData) },
        WmsgBuffer := snprintf H.sizeofScrollingMessage
          s.weatherData.scrollingMessage (scrollingFormat fmt1 s.weatherData),
        messageUpdatePending := true } := by
  by_cases c : (snprintf H.sizeofScrollingMessage s.weatherData.scrollingMessage
      (scrollingFormat fmt1 s.weatherData)).length < H.sizeofWmsgBuffer
  · simp only [updateScrollingMessage, strcpy, if_pos c] at h
    injection h with h
    exact ⟨c, h.symm⟩
  · simp only [updateScrollingMessage, strcpy, if_neg c] at h
    exact absurd h (by simp)

/-- Staging overruns the pending buffer when the truncated text does not fit
it, which a scratch field larger than the pending buffer allows. -/
theorem updateScrollingMessage_overrun (H : Header) (fmt1 : F → List Char)
    (s : WeatherDisplay F) (hpos : 0 < H.sizeofScrollingMessage)
    (hbig : H.sizeofWmsgBuffer < H.sizeofScrollingMessage)
    (hlong : H.sizeofWmsgBuffer ≤ (scrollingFormat fmt1 s.weatherData).length) :
    updateScrollingMessage H fmt1 s = none := by
  have hne : ¬ H.sizeofScrollingMessage = 0 := by omega
  have hlen : ¬ ((scrollingFormat fmt1 s.weatherData).take (H.sizeofScrollingMessage - 1)).length
      < H.sizeofWmsgBuffer := by
    rw [List.length_take]
    omega
  simp only [updateScrollingMessage, snprintf, strcpy, if_neg hne, if_neg hlen]

/-- The formatted message starts with a dot. -/
theorem scrollingFormat_head (fmt1 : F → List Char) (w : WeatherData F) :
    (scrollingFormat fmt1 w).head? = some '.' := by
  have hdots : "... ".toList = ['.', '.', '.', ' '] := by decide
  simp [scrollingFormat, hdots]

/-- Staging never leaves the bare text `Sunny, mild breeze` in the pending
buffer: what it stores is empty or starts with a dot. -/
theorem updateScrollingMessage_never_bare (H : Header) (fmt1 : F → List Char)
    (s s1 : WeatherDisplay F) (hpos : 0 < H.sizeofScrollingMessage)
    (h : updateScrollingMessage H fmt1 s = some s1) :
    s1.WmsgBuffer ≠ "Sunny, mild breeze".toList := by
  obtain ⟨_, e⟩ := updateScrollingMessage_some H fmt1 s s1 h
  subst e
  have hne : ¬ H.sizeofScrollingMessage = 0 := by omega
  have hbare : "Sunny, mild breeze".toList.head? = some 'S' := by decide
  simp only [snprintf, if_neg hne]
  intro hEq
  have hh := congrArg List.head? hEq
  rw [hbare] at hh
  by_cases h1 : H.sizeofScrollingMessage - 1 = 0
  · rw [h1] at hh
    simp at hh
  · obtain ⟨m, hm⟩ := Nat.exists_eq_succ_of_ne_zero h1
    rw [hm] at hh
    have hfmt := scrollingFormat_head fmt1 s.weatherData
    cases hl : scrollingFormat fmt1 s.weatherData with
    | nil =>
      rw [hl] at hfmt
      simp at hfmt
    | cons c cs =>
      rw [hl] at hfmt hh
      simp only [List.take_succ_cons, List.head?_cons, Option.some.injEq] at hfmt hh
      rw [hfmt] at hh
      exact absurd hh (by decide)

/-- What a returning call of `begin` has done. -/
theorem begin_some (H : Header) (fmt1 : F → List Char) (s s1 : WeatherDisplay F)
    (h : begin H fmt1 s = some s1) :
    ∃ s2, updateScrollingMessage H fmt1
        { s with ledcWrite := H.DEFAULT_BRIGHTNESS :: s.ledcWrite } = some s2
      ∧ s1 = initializeBrightnessControl H s2 := by
  simp only [begin] at h
  cases h2 : updateScrollingMessage H fmt1
      { s with ledcWrite := H.DEFAULT_BRIGHTNESS :: s.ledcWrite } with
  | none =>
    rw [h2] at h
    exact absurd h (by simp)
  | some s2 =>
    rw [h2] at h
    injection h with h
    exact ⟨s2, rfl, h.symm⟩

/-- What a returning constructor has built. -/
theorem ctor_some (H : Header) (fmt1 : F → List Char) (wd0 : WeatherData F)
    (s0 : WeatherDisplay F) (h : ctor H fmt1 wd0 = some s0) :
    s0.ani = H.ANIMATION_START_POSITION ∧ s0.Wmsg = defaultMessage
    ∧ s0.WmsgBuffer.length < H.sizeofWmsgBuffer ∧ s0.messageUpdatePending = true := by
  by_cases a : defaultMessage.length < H.sizeofWmsg
  · by_cases b : defaultMessage.length < H.sizeofWmsgBuffer
    · simp only [ctor, strcpy, if_pos a, if_pos b] at h
      obtain ⟨c, e⟩ := updateScrollingMessage_some H fmt1 _ s0 h
      subst e
      exact ⟨rfl, rfl, c, rfl⟩
    · simp only [ctor, strcpy, if_pos a, if_neg b] at h
      exact absurd h (by simp)
  · simp only [ctor, strcpy, if_neg a] at h
    exact absurd h (by simp)

/-- From a state with a pending text that fits the active buffer and the cursor
at or above the reset point: the first `ticksBeforeWrap` calls of `updateData`
only move the cursor, and the next call wraps and promotes the pending text. -/
theorem ticks_until_wrap (H : Header) (s : WeatherDisplay F) (hlo : -400 ≤ s.ani)
    (hp : s.messageUpdatePending = true) (hfit : s.WmsgBuffer.length < H.sizeofWmsg) :
    (∀ k, k ≤ ticksBeforeWrap s.ani →
        ticks H k s = some { s with ani := s.ani - 2 * (k : Int) }) ∧
      ticks H (ticksBeforeWrap s.ani + 1) s =
        some { s with ani := H.ANIMATION_START_POSITION, Wmsg := s.WmsgBuffer,
                      messageUpdatePending := false, currentMessageWidth := 0,
                      messageWidthCached := false } := by
  have hspec := ticksBeforeWrap_spec s.ani hlo
  have hrun : ∀ k, k ≤ ticksBeforeWrap s.ani →
      ticks H k s = some { s with ani := s.ani - 2 * (k : Int) } := by
    intro k hk
    apply ticks_noWrap
    have : (k : Int) ≤ (ticksBeforeWrap s.ani : Int) := by exact_mod_cast hk
    omega
  refine ⟨hrun, ?_⟩
  rw [ticks_succ, hrun _ (le_refl _), Option.some_bind]
  exact updateData_wrap_pending H _ (by unfold wraps; simp only; omega) hp hfit

/-- From cursor 0 with a pending text that fits the active buffer: the first
200 calls of `updateData` move the cursor to `-2 * k`, the 201st wraps and
promotes the pending text. -/
theorem ticks_from_zero (H : Header) (u : WeatherDisplay F) (hani : u.ani = 0)
    (hp : u.messageUpdatePending = true) (hfit : u.WmsgBuffer.length < H.sizeofWmsg) :
    (∀ k, k ≤ 200 → ticks H k u = some { u with ani := -2 * (k : Int) })
    ∧ ticks H 201 u =
        some { u with ani := H.ANIMATION_START_POSITION, Wmsg := u.WmsgBuffer,
                      messageUpdatePending := false, currentMessageWidth := 0,
                      messageWidthCached := false } := by
  have hn : ticksBeforeWrap u.ani = 200 := by
    rw [hani]
    decide
  have hrun := ticks_until_wrap H u (by rw [hani]; decide) hp hfit
  rw [hn] at hrun
  refine ⟨?_, hrun.2⟩
  intro k hk
  rw [hrun.1 k hk, hani]
  congr 2
  omega

end WeatherDisplay

/-! ## Lemmas on `draw` -/

namespace WeatherDisplay

variable {F : Type}

/-- A call of `draw` changes only the cached width, its flag and the three
static counters. -/
theorem draw_keeps (tw : List Char → Int) (t : Nat) (s : WeatherDisplay F) :
    (draw tw t s).1.Wmsg = s.Wmsg ∧ (draw tw t s).1.WmsgBuffer = s.WmsgBuffer
    ∧ (draw tw t s).1.messageUpdatePending = s.messageUpdatePending
    ∧ (draw tw t s).1.ani = s.ani
    ∧ (draw tw t s).1.displayBrightness = s.displayBrightness
    ∧ (draw tw t s).1.lastButtonPress = s.lastButtonPress
    ∧ (draw tw t s).1.ledcWrite = s.ledcWrite := by
  simp only [draw, reportPerformanceStats]
  split_ifs <;> simp

/-- A call of `draw` on a state whose width is not cached, or is cached as 0,
measures the active text once and caches the result. -/
theorem draw_measures (tw : List Char → Int) (t : Nat) (s : WeatherDisplay F)
    (h : s.messageWidthCached = false ∨ s.currentMessageWidth = 0) :
    (draw tw t s).2.measured = [s.Wmsg] ∧ (draw tw t s).1.currentMessageWidth = tw s.Wmsg
    ∧ (draw tw t s).1.messageWidthCached = true := by
  have hr : (!s.messageWidthCached || s.currentMessageWidth == 0) = true := by
    rcases h with h | h <;> simp [h]
  simp only [draw, reportPerformanceStats, hr, if_true]
  split_ifs <;> simp

/-- A call of `draw` on a state with a cached width other than 0 measures
nothing and keeps the cache. -/
theorem draw_uses_cache (tw : List Char → Int) (t : Nat) (s : WeatherDisplay F)
    (hc : s.messageWidthCached = true) (hw : s.currentMessageWidth ≠ 0) :
    (draw tw t s).2.measured = []
    ∧ (draw tw t s).1.currentMessageWidth = s.currentMessageWidth
    ∧ (draw tw t s).1.messageWidthCached = true := by
  have hr : (!s.messageWidthCached || s.currentMessageWidth == 0) = false := by
    simp [hc, hw]
  simp only [draw, reportPerformanceStats, hr, Bool.false_eq_true, if_false]
  split_ifs <;> simp [hc]

/-- A cached width other than 0 survives every operation except
`updateScrollingBuffer` and an `updateData` call that wraps with a text
pending; the active buffer is as before as well. -/
theorem step_keeps_cache (H : Header) (fmt1 : F → List Char) (tw : List Char → Int)
    (op : Op F) (u u1 : WeatherDisplay F) (h : step H fmt1 tw op u = some u1)
    (hc : u.messageWidthCached = true) (hw : u.currentMessageWidth ≠ 0)
    (hbuf : op ≠ Op.updateScrollingBuffer)
    (hswap : ¬ (op = Op.updateData ∧ wraps u ∧ u.messageUpdatePending = true)) :
    u1.messageWidthCached = true ∧ u1.currentMessageWidth = u.currentMessageWidth
    ∧ u1.Wmsg = u.Wmsg := by
  cases op with
  | begin =>
    obtain ⟨s2, h2, e⟩ := begin_some H fmt1 u u1 h
    obtain ⟨_, e2⟩ := updateScrollingMessage_some H fmt1 _ s2 h2
    subst e
    subst e2
    simp [initializeBrightnessControl, hc]
  | updateScrollingMessage =>
    obtain ⟨_, e⟩ := updateScrollingMessage_some H fmt1 u u1 h
    subst e
    simp [hc]
  | updateScrollingBuffer => exact absurd rfl hbuf
  | updateData =>
    simp only [step] at h
    by_cases hwr : wraps u
    · cases hp : u.messageUpdatePending with
      | true => exact absurd ⟨rfl, hwr, hp⟩ hswap
      | false =>
        rw [updateData_wrap_idle H u hwr hp] at h
        injection h with h
        subst h
        simp [hc]
    · rw [updateData_noWrap H u hwr] at h
      injection h with h
      subst h
      simp [hc]
  | draw t =>
    simp only [step] at h
    injection h with h
    subst h
    obtain ⟨_, h2, h3⟩ := draw_uses_cache tw t u hc hw
    exact ⟨h3, h2, (draw_keeps tw t u).1⟩
  | handleBrightnessButtons t k b =>
    simp only [step] at h
    injection h with h
    subst h
    simp only [handleBrightnessButtons]
    split_ifs <;> simp [hc]
  | fetch wd =>
    simp only [step] at h
    injection h with h
    subst h
    simp [hc]

/-- No operation takes the cursor out of `[-400, start]`. -/
theorem step_keeps_range (H : Header) (fmt1 : F → List Char) (tw : List Char → Int)
    (hstart : -400 ≤ H.ANIMATION_START_POSITION)
    (op : Op F) (u u1 : WeatherDisplay F) (h : step H fmt1 tw op u = some u1)
    (hr : -400 ≤ u.ani ∧ u.ani ≤ H.ANIMATION_START_POSITION) :
    -400 ≤ u1.ani ∧ u1.ani ≤ H.ANIMATION_START_POSITION := by
  cases op with
  | begin =>
    obtain ⟨s2, h2, e⟩ := begin_some H fmt1 u u1 h
    obtain ⟨_, e2⟩ := updateScrollingMessage_some H fmt1 _ s2 h2
    subst e
    subst e2
    exact hr
  | updateScrollingMessage =>
    obtain ⟨_, e⟩ := updateScrollingMessage_some H fmt1 u u1 h
    subst e
    exact hr
  | updateScrollingBuffer =>
    simp only [step, updateScrollingBuffer, strcpy] at h
    split_ifs at h
    injection h with h
    subst h
    exact hr
  | updateData =>
    simp only [step, updateData, strcpy] at h
    split_ifs at h <;> (injection h with h; subst h; simp only) <;> omega
  | draw t =>
    simp only [step] at h
    injection h with h
    subst h
    rw [(draw_keeps tw t u).2.2.2.1]
    exact hr
  | handleBrightnessButtons t k b =>
    simp only [step] at h
    injection h with h
    subst h
    simp only [handleBrightnessButtons]
    split_ifs <;> exact hr
  | fetch wd =>
    simp only [step] at h
    injection h with h
    subst h
    exact hr

/-- No sequence of operations takes the cursor out of `[-400, start]`. -/
theorem run_keeps_range (H : Header) (fmt1 : F → List Char) (tw : List Char → Int)
    (hstart : -400 ≤ H.ANIMATION_START_POSITION)
    (ops : List (Op F)) (u v : WeatherDisplay F) (h : run H fmt1 tw ops u = some v)
    (hr : -400 ≤ u.ani ∧ u.ani ≤ H.ANIMATION_START_POSITION) :
    -400 ≤ v.ani ∧ v.ani ≤ H.ANIMATION_START_POSITION := by
  induction ops generalizing u with
  | nil =>
    simp only [run] at h
    injection h with h
    subst h
    exact hr
  | cons op ops ih =>
    simp only [run] at h
    cases h1 : step H fmt1 tw op u with
    | none =>
      rw [h1] at h
      exact absurd h (by simp)
    | some u1 =>
      rw [h1, Option.some_bind] at h
      exact ih u1 h (step_keeps_range H fmt1 tw hstart op u u1 h1 hr)

/-- The copies `draw` puts on the strip: one at the cursor, and a second one
`currentMessageWidth + 80` further right when the cursor is not negative or
the test of the off-screen phase passes. -/
theorem draw_strip (tw : List Char → Int) (t : Nat) (s : WeatherDisplay F) :
    (draw tw t s).2.strip =
      if 0 ≤ s.ani ∨ s.ani + ((draw tw t s).1.currentMessageWidth + 80)
          > -(draw tw t s).1.currentMessageWidth then
        [(s.Wmsg, s.ani), (s.Wmsg, s.ani + ((draw tw t s).1.currentMessageWidth + 80))]
      else [(s.Wmsg, s.ani)] := by
  simp only [draw, reportPerformanceStats]
  split_ifs <;> simp_all <;> omega

theorem draws_cons (tw : List Char → Int) (t : Nat) (ts : List Nat) (s : WeatherDisplay F) :
    draws tw (t :: ts) s
      = ((draws tw ts (draw tw t s).1).1, (draw tw t s).2 :: (draws tw ts (draw tw t s).1).2) :=
  rfl

/-- Draws on a state with a cached width other than 0 never measure. -/
theorem draws_cached_nonzero (tw : List Char → Int) (ts : List Nat) (u : WeatherDisplay F)
    (hc : u.messageWidthCached = true) (hw : u.currentMessageWidth ≠ 0) :
    (draws tw ts u).2.map Frame.measured = List.replicate ts.length []
    ∧ (draws tw ts u).1.currentMessageWidth = u.currentMessageWidth := by
  induction ts generalizing u with
  | nil => simp [draws]
  | cons t ts ih =>
    obtain ⟨h1, h2, h3⟩ := draw_uses_cache tw t u hc hw
    obtain ⟨i1, i2⟩ := ih (draw tw t u).1 h3 (by rw [h2]; exact hw)
    rw [draws_cons]
    simp only [List.map_cons, List.length_cons, List.replicate_succ, h1, i1, i2, h2]
    trivial

/-- Draws on a state with width 0 whose active text measures 0 measure at
every draw. -/
theorem draws_width_zero (tw : List Char → Int) (ts : List Nat) (u : WeatherDisplay F)
    (hw : u.currentMessageWidth = 0) (ht : tw u.Wmsg = 0) :
    (draws tw ts u).2.map Frame.measured = List.replicate ts.length [u.Wmsg]
    ∧ (draws tw ts u).1.currentMessageWidth = 0 := by
  induction ts generalizing u with
  | nil => simp [draws, hw]
  | cons t ts ih =>
    obtain ⟨h1, h2, _⟩ := draw_measures tw t u (Or.inr hw)
    have hk := (draw_keeps tw t u).1
    obtain ⟨i1, i2⟩ := ih (draw tw t u).1 (by rw [h2]; exact ht) (by rw [hk]; exact ht)
    rw [draws_cons]
    simp only [List.map_cons, List.length_cons, List.replicate_succ, h1, i1, i2, hk]
    trivial

theorem usub_zero (t : Nat) (h : t < ULONG_RANGE) : usub t 0 = t := by
  unfold usub
  unfold ULONG_RANGE at h ⊢
  omega

/-- A draw at least 10000 ms after the last report: the report carries the
incremented counter, the counter is reset, the report time is the draw time. -/
theorem draw_reports (tw : List Char → Int) (t : Nat) (s : WeatherDisplay F)
    (h : 10000 ≤ usub t s.lastPerformanceReport) :
    (draw tw t s).2.report
        = some { fps := (uinc s.frameCount : Rat) / 10, frameCount := uinc s.frameCount }
    ∧ (draw tw t s).1.frameCount = 0 ∧ (draw tw t s).1.lastPerformanceReport = t := by
  simp only [draw, reportPerformanceStats]
  split_ifs <;> simp_all

/-- A draw less than 10000 ms after the last report: no report, the counter is
incremented, the report time stays. -/
theorem draw_quiet (tw : List Char → Int) (t : Nat) (s : WeatherDisplay F)
    (h : usub t s.lastPerformanceReport < 10000) :
    (draw tw t s).2.report = none
    ∧ (draw tw t s).1.frameCount = uinc s.frameCount
    ∧ (draw tw t s).1.lastPerformanceReport = s.lastPerformanceReport := by
  simp only [draw, reportPerformanceStats]
  split_ifs <;> simp_all <;> omega

theorem draws_append (tw : List Char → Int) (ts us : List Nat) (s : WeatherDisplay F) :
    draws tw (ts ++ us) s
      = ((draws tw us (draws tw ts s).1).1,
         (draws tw ts s).2 ++ (draws tw us (draws tw ts s).1).2) := by
  induction ts generalizing s with
  | nil => simp [draws]
  | cons t ts ih => simp [draws, ih]

/-- Draws before the 10 second mark, with the last report at time 0: none
reports, and each adds one to the frame counter. -/
theorem draws_quiet (tw : List Char → Int) (ts : List Nat) (u : WeatherDisplay F)
    (hlast : u.lastPerformanceReport = 0) (hts : ∀ t ∈ ts, t < 10000)
    (hlen : u.frameCount + ts.length < ULONG_RANGE) :
    (draws tw ts u).2.map Frame.report = List.replicate ts.length none
    ∧ (draws tw ts u).1.frameCount = u.frameCount + ts.length
    ∧ (draws tw ts u).1.lastPerformanceReport = 0 := by
  induction ts generalizing u with
  | nil => simp [draws, hlast]
  | cons t ts ih =>
    have ht : t < 10000 := hts t (List.mem_cons_self t ts)
    have hq : usub t u.lastPerformanceReport < 10000 := by
      rw [hlast, usub_zero t (by unfold ULONG_RANGE; omega)]
      exact ht
    obtain ⟨h1, h2, h3⟩ := draw_quiet tw t u hq
    simp only [List.length_cons] at hlen
    have hinc : uinc u.frameCount = u.frameCount + 1 := by
      unfold uinc
      exact Nat.mod_eq_of_lt (by omega)
    obtain ⟨i1, i2, i3⟩ := ih (draw tw t u).1 (by rw [h3, hlast])
      (fun x hx => hts x (List.mem_cons_of_mem t hx)) (by rw [h2, hinc]; omega)
    rw [draws_cons]
    simp only [List.map_cons, List.length_cons, List.replicate_succ, h1, i1, i2, i3, h2, hinc]
    refine ⟨trivial, by omega, trivial⟩

/-- With the frame counter and the last report time at 0, draws at times below
10000 ms followed by a draw at 10000 ms: only the last one reports, with the
number of draws over 10; the counter is then 0 and the report time 10000. -/
theorem draws_then_report (tw : List Char → Int) (s : WeatherDisplay F)
    (ts : List Nat) (hfc : s.frameCount = 0) (hlast : s.lastPerformanceReport = 0)
    (hts : ∀ t ∈ ts, t < 10000) (hlen : ts.length + 1 < ULONG_RANGE) :
    (draws tw (ts ++ [10000]) s).2.map Frame.report
        = List.replicate ts.length none
          ++ [some { fps := ((ts.length + 1 : Nat) : Rat) / 10, frameCount := ts.length + 1 }]
      ∧ (draws tw (ts ++ [10000]) s).1.frameCount = 0
      ∧ (draws tw (ts ++ [10000]) s).1.lastPerformanceReport = 10000 := by
  obtain ⟨q1, q2, q3⟩ := draws_quiet tw ts s hlast hts (by rw [hfc]; omega)
  have hrep : 10000 ≤ usub 10000 (draws tw ts s).1.lastPerformanceReport := by
    rw [q3, usub_zero 10000 (by unfold ULONG_RANGE; omega)]
  obtain ⟨r1, r2, r3⟩ := draw_reports tw 10000 (draws tw ts s).1 hrep
  have hinc : uinc (draws tw ts s).1.frameCount = ts.length + 1 := by
    rw [q2, hfc]
    unfold uinc
    rw [Nat.zero_add]
    exact Nat.mod_eq_of_lt hlen
  rw [hinc] at r1
  refine ⟨?_, ?_, ?_⟩
  · rw [draws_append]
    simp only [List.map_append, q1, draws, List.map_cons, List.map_nil, r1]
  · rw [draws_append]
    simp only [draws]
    exact r2
  · rw [draws_append]
    simp only [draws]
    exact r3

end WeatherDisplay

/-! ## The claims -/

namespace WeatherDisplay

variable {F : Type}

/-- C1. For a formatted text `T` that fits the scratch field and both buffers,
and a state with the cursor in `[-400, start]`: staging returns a state with
`WmsgBuffer = T` and the pending flag set, the active buffer untouched; the
first `ticksBeforeWrap` ticks do not wrap and leave the active buffer as it was;
the next tick wraps, and after it the active buffer is `T`, the pending flag is
false and the cached width is marked invalid.  The same holds from any state
in which a text that fits the active buffer is pending, whatever the text.
Moreover any tick that does not wrap, on any state, returns and leaves the
active buffer as it was. -/
theorem C1_staged_text_active_after_first_wrap (H : Header) (fmt1 : F → List Char)
    (s : WeatherDisplay F) (T : List Char)
    (hT : scrollingFormat fmt1 s.weatherData = T)
    (h1 : T.length < H.sizeofScrollingMessage) (h2 : T.length < H.sizeofWmsgBuffer)
    (h3 : T.length < H.sizeofWmsg)
    (hlo : -400 ≤ s.ani) (_hhi : s.ani ≤ H.ANIMATION_START_POSITION) :
    (∃ s1, updateScrollingMessage H fmt1 s = some s1
      ∧ s1.WmsgBuffer = T ∧ s1.messageUpdatePending = true ∧ s1.Wmsg = s.Wmsg
      ∧ (∀ k, k ≤ ticksBeforeWrap s.ani →
          ∃ sk, ticks H k s1 = some sk ∧ sk.ani = s.ani - 2 * (k : Int) ∧ sk.Wmsg = s.Wmsg
            ∧ (k < ticksBeforeWrap s.ani → ¬ wraps sk)
            ∧ (k = ticksBeforeWrap s.ani → wraps sk))
      ∧ (∃ sw, ticks H (ticksBeforeWrap s.ani + 1) s1 = some sw
          ∧ sw.Wmsg = T ∧ sw.messageUpdatePending = false ∧ sw.messageWidthCached = false
          ∧ sw.ani = H.ANIMATION_START_POSITION))
    ∧ (∀ (u : WeatherDisplay F) (T1 : List Char), u.WmsgBuffer = T1 →
        u.messageUpdatePending = true → T1.length < H.sizeofWmsg → -400 ≤ u.ani →
        u.ani ≤ H.ANIMATION_START_POSITION →
        (∀ k, k ≤ ticksBeforeWrap u.ani →
          ∃ sk, ticks H k u = some sk ∧ sk.ani = u.ani - 2 * (k : Int) ∧ sk.Wmsg = u.Wmsg
            ∧ (k < ticksBeforeWrap u.ani → ¬ wraps sk)
            ∧ (k = ticksBeforeWrap u.ani → wraps sk))
        ∧ (∃ sw, ticks H (ticksBeforeWrap u.ani + 1) u = some sw
          ∧ sw.Wmsg = T1 ∧ sw.messageUpdatePending = false ∧ sw.messageWidthCached = false
          ∧ sw.ani = H.ANIMATION_START_POSITION))
    ∧ (∀ u : WeatherDisplay F, ¬ wraps u →
        ∃ u1, updateData H u = some u1 ∧ u1.Wmsg = u.Wmsg) := by
  have hgen : ∀ (u : WeatherDisplay F) (T1 : List Char), u.WmsgBuffer = T1 →
      u.messageUpdatePending = true → T1.length < H.sizeofWmsg → -400 ≤ u.ani →
      (∀ k, k ≤ ticksBeforeWrap u.ani →
        ∃ sk, ticks H k u = some sk ∧ sk.ani = u.ani - 2 * (k : Int) ∧ sk.Wmsg = u.Wmsg
          ∧ (k < ticksBeforeWrap u.ani → ¬ wraps sk)
          ∧ (k = ticksBeforeWrap u.ani → wraps sk))
      ∧ (∃ sw, ticks H (ticksBeforeWrap u.ani + 1) u = some sw
        ∧ sw.Wmsg = T1 ∧ sw.messageUpdatePending = false ∧ sw.messageWidthCached = false
        ∧ sw.ani = H.ANIMATION_START_POSITION) := by
    intro u T1 hb hp hfit hu
    subst hb
    have hrun := ticks_until_wrap H u hu hp hfit
    have hspec := ticksBeforeWrap_spec u.ani hu
    refine ⟨?_, ⟨_, hrun.2, rfl, rfl, rfl, rfl⟩⟩
    intro k hk
    refine ⟨_, hrun.1 k hk, rfl, rfl, ?_, ?_⟩
    · intro hlt
      have : (k : Int) + 1 ≤ (ticksBeforeWrap u.ani : Int) := by exact_mod_cast hlt
      unfold wraps
      simp only
      omega
    · intro heq
      subst heq
      unfold wraps
      simp only
      omega
  subst hT
  refine ⟨⟨_, updateScrollingMessage_fits H fmt1 s h1 h2, rfl, rfl, rfl, ?_⟩,
    fun u T1 hb hp hfit hu _ => hgen u T1 hb hp hfit hu, ?_⟩
  · exact hgen
      ({ s with
          weatherData :=
            { s.weatherData with scrollingMessage := scrollingFormat fmt1 s.weatherData },
          WmsgBuffer := scrollingFormat fmt1 s.weatherData,
          messageUpdatePending := true } : WeatherDisplay F) _ rfl rfl h3 hlo
  · intro u hu
    exact ⟨_, updateData_noWrap H u hu, rfl⟩

/-- Instance of C1: the `lightRain` message staged at cursor 100 with 256 byte
buffers is the active text after 251 ticks. -/
theorem C1_staged_text_active_after_first_wrap_witness :
    ∃ s1 sw, updateScrollingMessage sampleHeader id sampleState = some s1
      ∧ ticks sampleHeader 251 s1 = some sw
      ∧ sw.Wmsg = scrollingFormat id lightRain ∧ sw.messageUpdatePending = false := by
  obtain ⟨⟨s1, e1, _, _, _, _, sw, e2, e3, e4, _⟩, _, _⟩ :=
    C1_staged_text_active_after_first_wrap sampleHeader id sampleState
      (scrollingFormat id lightRain) rfl (by decide) (by decide) (by decide)
      (by decide) (by decide)
  exact ⟨s1, sw, e1, e2, e3, e4⟩

/-- C2. From the constructed state, with a start position at or above -400 and
an active buffer at least as large as the pending one: the cursor starts at the
start position; after any number of `updateData` calls it lies in
`[-400, start]`; and the next call returns, lowering the cursor by exactly 2
when the lowered value is still at or above -400 and setting it to the start
position otherwise.  The cursor is in `[-400, start]` as well in every state
that any sequence of operations reaches from a constructed object. -/
theorem C2_cursor_stays_in_range (H : Header) (fmt1 : F → List Char) (wd0 : WeatherData F)
    (s0 : WeatherDisplay F) (hstart : -400 ≤ H.ANIMATION_START_POSITION)
    (hcap : H.sizeofWmsgBuffer ≤ H.sizeofWmsg) (hc : ctor H fmt1 wd0 = some s0) :
    s0.ani = H.ANIMATION_START_POSITION
    ∧ (∀ k, ∃ sk, ticks H k s0 = some sk
        ∧ -400 ≤ sk.ani ∧ sk.ani ≤ H.ANIMATION_START_POSITION
        ∧ ∃ sk1, ticks H (k + 1) s0 = some sk1 ∧ updateData H sk = some sk1
            ∧ (-400 ≤ sk.ani - 2 → sk1.ani = sk.ani - 2)
            ∧ (sk.ani - 2 < -400 → sk1.ani = H.ANIMATION_START_POSITION))
    ∧ ∀ (tw : List Char → Int) (v : WeatherDisplay F), Reachable H fmt1 tw v →
        -400 ≤ v.ani ∧ v.ani ≤ H.ANIMATION_START_POSITION := by
  have hs0 : s0.ani = H.ANIMATION_START_POSITION ∧ s0.WmsgBuffer.length < H.sizeofWmsgBuffer :=
    ⟨(ctor_some H fmt1 wd0 s0 hc).1, (ctor_some H fmt1 wd0 s0 hc).2.2.1⟩
  refine ⟨hs0.1, ?_, ?_⟩
  swap
  · intro tw v hv
    obtain ⟨wd, v0, ops, hv0, hrun⟩ := hv
    have h0 := (ctor_some H fmt1 wd v0 hv0).1
    exact run_keeps_range H fmt1 tw hstart ops v0 v hrun (by rw [h0]; exact ⟨hstart, le_refl _⟩)
  intro k
  obtain ⟨sk, hk, h1, h2, h3⟩ := ticks_total H s0 hstart (by rw [hs0.1]; exact hstart)
    (le_of_eq hs0.1) (fun _ => lt_of_lt_of_le hs0.2 hcap) k
  obtain ⟨t, ht, ha, hb, _, _⟩ := updateData_total H sk h3
  refine ⟨sk, hk, h1, h2, t, ?_, ht, ?_, ?_⟩
  · rw [ticks_succ, hk, Option.some_bind, ht]
  · intro h
    exact ha (by unfold wraps; omega)
  · intro h
    exact hb h

/-- Instance of C2: the object constructed with the sample header and
`clearSky`, after 500 ticks. -/
theorem C2_cursor_stays_in_range_witness :
    ∃ s0, ctor sampleHeader id clearSky = some s0 ∧ s0.ani = 320
      ∧ ∃ sk, ticks sampleHeader 500 s0 = some sk ∧ -400 ≤ sk.ani ∧ sk.ani ≤ 320 := by
  have hc : ctor sampleHeader id clearSky
      = some { sampleState with ani := 320, messageUpdatePending := true,
                                weatherData := { clearSky with scrollingMessage := defaultMessage } } := by
    decide
  obtain ⟨e0, hk, _⟩ := C2_cursor_stays_in_range sampleHeader id clearSky _ (by decide)
    (by decide) hc
  obtain ⟨sk, e1, e2, e3, _⟩ := hk 500
  exact ⟨_, hc, e0, sk, e1, e2, e3⟩

/-- C3, as stated, fails.  The state `stagedRain` is reachable (constructor,
fetch, staging) and its cursor is at the start position, so no wrap is taking
place; `updateScrollingBuffer` returns on it and replaces the active buffer,
which held the default message, by the new message. -/
theorem C3_updateScrollingBuffer_overwrites_active :
    Reachable sampleHeader id sixPerChar stagedRain
    ∧ stagedRain.Wmsg = defaultMessage
    ∧ step sampleHeader id sixPerChar Op.updateScrollingBuffer stagedRain
        = some { stagedRain with Wmsg := scrollingFormat id lightRain }
    ∧ scrollingFormat id lightRain ≠ stagedRain.Wmsg := by
  refine ⟨⟨clearSky, { stagedRain with
      messageUpdatePending := true, WmsgBuffer := defaultMessage,
      weatherData := { clearSky with scrollingMessage := defaultMessage } },
    [Op.fetch lightRain, Op.updateScrollingMessage], by decide, by decide⟩,
    by decide, by decide, by decide⟩

/-- C3, amended.  For every state and every operation that returns: unless the
operation is `updateScrollingBuffer` or an `updateData` call that wraps, the
active buffer is as before.  `updateScrollingBuffer` changes the state in
exactly this way: the active and the pending buffer are set to
`weatherData.scrollingMessage`, the pending flag is set and the cached width
is marked invalid; it returns whenever that text fits both buffers.  An
`updateData` call that wraps with the pending flag set resets the cursor,
copies the pending buffer to the active one, clears the flag and invalidates
the cached width; with the flag clear it only resets the cursor.  Every other
operation leaves a set pending flag set. -/
theorem C3_active_buffer_writers (H : Header) (fmt1 : F → List Char)
    (tw : List Char → Int) (op : Op F) (s s1 : WeatherDisplay F)
    (h : step H fmt1 tw op s = some s1) :
    (op ≠ Op.updateScrollingBuffer → ¬ (op = Op.updateData ∧ wraps s) → s1.Wmsg = s.Wmsg)
    ∧ (op = Op.updateScrollingBuffer →
        s1 = { s with Wmsg := s.weatherData.scrollingMessage,
                      WmsgBuffer := s.weatherData.scrollingMessage,
                      messageUpdatePending := true, messageWidthCached := false })
    ∧ (op = Op.updateData → wraps s →
        s1.messageUpdatePending = false
        ∧ (s.messageUpdatePending = true →
            s1 = { s with ani := H.ANIMATION_START_POSITION, Wmsg := s.WmsgBuffer,
                          messageUpdatePending := false, currentMessageWidth := 0,
                          messageWidthCached := false })
        ∧ (s.messageUpdatePending = false →
            s1 = { s with ani := H.ANIMATION_START_POSITION }))
    ∧ (¬ (op = Op.updateData ∧ wraps s) → s.messageUpdatePending = true →
        s1.messageUpdatePending = true)
    ∧ (∀ u : WeatherDisplay F, u.weatherData.scrollingMessage.length < H.sizeofWmsg →
        u.weatherData.scrollingMessage.length < H.sizeofWmsgBuffer →
        step H fmt1 tw Op.updateScrollingBuffer u
          = some { u with Wmsg := u.weatherData.scrollingMessage,
                          WmsgBuffer := u.weatherData.scrollingMessage,
                          messageUpdatePending := true, messageWidthCached := false }) := by
  have htotal : ∀ u : WeatherDisplay F, u.weatherData.scrollingMessage.length < H.sizeofWmsg →
      u.weatherData.scrollingMessage.length < H.sizeofWmsgBuffer →
      step H fmt1 tw Op.updateScrollingBuffer u
        = some { u with Wmsg := u.weatherData.scrollingMessage,
                        WmsgBuffer := u.weatherData.scrollingMessage,
                        messageUpdatePending := true, messageWidthCached := false } := by
    intro u ha hb
    simp only [step, updateScrollingBuffer, strcpy, if_pos ha, if_pos hb]
  refine ⟨?_, ?_, ?_, ?_, htotal⟩
  all_goals clear htotal
  all_goals
    cases op with
    | begin =>
      obtain ⟨s2, h2, e⟩ := begin_some H fmt1 s s1 h
      obtain ⟨_, e2⟩ := updateScrollingMessage_some H fmt1 _ s2 h2
      subst e
      subst e2
      simp [initializeBrightnessControl]
    | updateScrollingMessage =>
      obtain ⟨_, e⟩ := updateScrollingMessage_some H fmt1 s s1 h
      subst e
      simp
    | updateScrollingBuffer =>
      simp only [step, updateScrollingBuffer, strcpy] at h
      by_cases a : s.weatherData.scrollingMessage.length < H.sizeofWmsg
      · by_cases b : s.weatherData.scrollingMessage.length < H.sizeofWmsgBuffer
        · simp only [if_pos a, if_pos b] at h
          injection h with h
          subst h
          simp
        · simp only [if_pos a, if_neg b] at h
          exact absurd h (by simp)
      · simp only [if_neg a] at h
        exact absurd h (by simp)
    | updateData =>
      simp only [step] at h
      by_cases hw : wraps s
      · cases hp : s.messageUpdatePending with
        | true =>
          by_cases hfit : s.WmsgBuffer.length < H.sizeofWmsg
          · rw [updateData_wrap_pending H s hw hp hfit] at h
            injection h with h
            subst h
            simp [hw]
          · unfold wraps at hw
            simp only [updateData, strcpy, if_pos hw, if_pos hp, if_neg hfit] at h
            exact absurd h (by simp)
        | false =>
          rw [updateData_wrap_idle H s hw hp] at h
          injection h with h
          subst h
          simp [hw, hp]
      · rw [updateData_noWrap H s hw] at h
        injection h with h
        subst h
        simp [hw]
    | draw t =>
      simp only [step] at h
      injection h with h
      subst h
      have hk := draw_keeps tw t s
      simp [hk.1, hk.2.2.1]
    | handleBrightnessButtons t k b =>
      simp only [step] at h
      injection h with h
      subst h
      simp only [handleBrightnessButtons]
      split_ifs <;> simp
    | fetch wd =>
      simp only [step] at h
      injection h with h
      subst h
      simp

/-- Instance of C3 amended: staging on the sample state returns and leaves the
default message active. -/
theorem C3_active_buffer_writers_witness :
    step sampleHeader id sixPerChar Op.updateScrollingMessage
        { sampleState with weatherData := clearSky }
      = some { sampleState with
          messageUpdatePending := true,
          weatherData := { clearSky with scrollingMessage := defaultMessage } }
    ∧ ({ sampleState with
          messageUpdatePending := true,
          weatherData := { clearSky with scrollingMessage := defaultMessage } }
        : WeatherDisplay (List Char)).Wmsg = defaultMessage :=
  ⟨by decide,
   (C3_active_buffer_writers sampleHeader id sixPerChar Op.updateScrollingMessage
      { sampleState with weatherData := clearSky } _ (by decide)).1
      (by decide) (by decide)⟩

/-- C4, as stated, fails.  With start position 0, staging at cursor 0 with the
description `Sunny, mild breeze` puts the formatted message in the pending
buffer; the 201st `updateData` call resets the cursor to 0 and makes that
formatted message the active text, which is not the text `Sunny, mild breeze`. -/
theorem C4_active_text_is_formatted_message :
    zeroStartHeader.ANIMATION_START_POSITION = 0 ∧ sunnyState.ani = 0
    ∧ sunnyState.weatherData.description = "Sunny, mild breeze".toList
    ∧ (updateScrollingMessage zeroStartHeader id sunnyState).map (fun s => s.WmsgBuffer)
        = some sunnyMessage
    ∧ ((updateScrollingMessage zeroStartHeader id sunnyState).bind
          (ticks zeroStartHeader 201)).map (fun s => (s.ani, s.Wmsg))
        = some (0, sunnyMessage)
    ∧ sunnyMessage ≠ "Sunny, mild breeze".toList := by
  refine ⟨by decide, by decide, by decide, by decide, ?_, by decide⟩
  have hst : updateScrollingMessage zeroStartHeader id sunnyState
      = some { sunnyState with
          weatherData := { sunny with scrollingMessage := sunnyMessage },
          WmsgBuffer := sunnyMessage, messageUpdatePending := true } := by
    decide
  have h201 := (ticks_from_zero zeroStartHeader
    ({ sunnyState with
        weatherData := { sunny with scrollingMessage := sunnyMessage },
        WmsgBuffer := sunnyMessage, messageUpdatePending := true }
      : WeatherDisplay (List Char)) rfl rfl (by decide)).2
  rw [hst, Option.some_bind, h201]
  rfl

/-- C4, amended.  With start position 0: after staging at cursor 0 with the
description `Sunny, mild breeze`, the formatted message fitting the scratch
field and both buffers, the pending buffer holds the formatted message
`... Sunny, mild breeze, visibility is <v>km/h, wind of <w>km/h, last updated
at <t> ...`, which is not the bare text; the cursor after the k-th `updateData`
call is `-2 * k` for every k from 1 to 200, the active buffer and the pending
flag being as before; the 201st call resets the cursor to 0, and after it the
active buffer is the formatted message and the pending flag is false. -/
theorem C4_scenario_201_ticks_formatted (H : Header) (fmt1 : F → List Char)
    (s : WeatherDisplay F) (hstart : H.ANIMATION_START_POSITION = 0) (hani : s.ani = 0)
    (hdesc : s.weatherData.description = "Sunny, mild breeze".toList)
    (h1 : (scrollingFormat fmt1 s.weatherData).length < H.sizeofScrollingMessage)
    (h2 : (scrollingFormat fmt1 s.weatherData).length < H.sizeofWmsgBuffer)
    (h3 : (scrollingFormat fmt1 s.weatherData).length < H.sizeofWmsg) :
    ∃ s1, updateScrollingMessage H fmt1 s = some s1
      ∧ s1.WmsgBuffer
          = "... Sunny, mild breeze, visibility is ".toList ++ fmt1 s.weatherData.visibility
            ++ "km/h, wind of ".toList ++ fmt1 s.weatherData.windSpeed
            ++ "km/h, last updated at ".toList ++ s.weatherData.lastUpdated ++ " ...".toList
      ∧ s1.WmsgBuffer ≠ "Sunny, mild breeze".toList
      ∧ s1.ani = 0 ∧ s1.Wmsg = s.Wmsg
      ∧ (∀ k, 1 ≤ k → k ≤ 200 → ∃ sk, ticks H k s1 = some sk ∧ sk.ani = -2 * (k : Int)
          ∧ sk.Wmsg = s.Wmsg ∧ sk.messageUpdatePending = true)
      ∧ ∃ sw, ticks H 201 s1 = some sw ∧ sw.ani = 0 ∧ sw.Wmsg = s1.WmsgBuffer
          ∧ sw.Wmsg ≠ "Sunny, mild breeze".toList
          ∧ sw.messageUpdatePending = false ∧ sw.messageWidthCached = false := by
  have hst := updateScrollingMessage_fits H fmt1 s h1 h2
  have hbare := updateScrollingMessage_never_bare H fmt1 s _ (by omega) hst
  have hpre : "... ".toList ++ "Sunny, mild breeze".toList ++ ", visibility is ".toList
      = "... Sunny, mild breeze, visibility is ".toList := by decide
  have hrun := ticks_from_zero H
    ({ s with
        weatherData :=
          { s.weatherData with scrollingMessage := scrollingFormat fmt1 s.weatherData },
        WmsgBuffer := scrollingFormat fmt1 s.weatherData,
        messageUpdatePending := true } : WeatherDisplay F) hani rfl h3
  refine ⟨_, hst, ?_, hbare, hani, rfl, ?_, ?_⟩
  · simp only [scrollingFormat, hdesc, hpre]
  · intro k _ hk
    exact ⟨_, hrun.1 k hk, rfl, rfl, rfl⟩
  · exact ⟨_, hrun.2, hstart, rfl, hbare, rfl, rfl⟩

/-- Instance of C4 amended: `sunny` staged at cursor 0 with 256 byte buffers;
after 200 ticks the cursor is -400 with the default message still active, after
201 ticks the cursor is 0 and the formatted message is active. -/
theorem C4_scenario_201_ticks_formatted_witness :
    ∃ s1 s200 s201, updateScrollingMessage zeroStartHeader id sunnyState = some s1
      ∧ ticks zeroStartHeader 200 s1 = some s200 ∧ s200.ani = -400
      ∧ s200.Wmsg = defaultMessage
      ∧ ticks zeroStartHeader 201 s1 = some s201 ∧ s201.ani = 0
      ∧ s201.Wmsg = sunnyMessage := by
  obtain ⟨s1, e1, e2, _, _, _, hk, s201, e3, e4, e5, _⟩ :=
    C4_scenario_201_ticks_formatted zeroStartHeader id sunnyState rfl rfl rfl
      (by decide) (by decide) (by decide)
  obtain ⟨s200, f1, f2, f3, _⟩ := hk 200 (by decide) (by decide)
  refine ⟨s1, s200, s201, e1, f1, f2, f3, e3, e4, ?_⟩
  rw [e5, e2]
  decide

/-- C5, as stated, fails.  With a cached width of 100 and a strip of width 170:
at cursor 0 the second copy is drawn at 180, right of the strip; at cursor -400
the single copy drawn spans `[-400, -300]`, left of the strip.  Both cursors
lie in `[-400, start]` for the start position 320. -/
theorem C5_copies_drawn_outside_strip :
    (-400 : Int) ≤ 0 ∧ (0 : Int) ≤ sampleHeader.ANIMATION_START_POSITION
    ∧ (draw (fun _ => 100) 0 (cachedAt 0)).2.strip
        = [(defaultMessage, 0), (defaultMessage, 180)]
    ∧ ¬ spanMeetsStrip 180 100 170
    ∧ (draw (fun _ => 100) 0 (cachedAt (-400))).2.strip = [(defaultMessage, -400)]
    ∧ ¬ spanMeetsStrip (-400) 100 170 := by
  refine ⟨by decide, by decide, by decide, by decide, by decide, by decide⟩

/-- C5, amended.  With `w` the width `draw` works with (not negative): `draw`
puts at most two copies on the strip; the first is at the cursor; a second one
is drawn exactly when the cursor is not negative or `cursor + w + 80 > -w`; it
is at `cursor + w + 80` and its span is never entirely left of 0. -/
theorem C5_strip_copies (tw : List Char → Int) (t : Nat) (s : WeatherDisplay F)
    (hw : 0 ≤ (draw tw t s).1.currentMessageWidth) :
    (draw tw t s).2.strip.length ≤ 2
    ∧ (draw tw t s).2.strip.head? = some (s.Wmsg, s.ani)
    ∧ ((draw tw t s).2.strip.length = 2 ↔
        (0 ≤ s.ani ∨ s.ani + ((draw tw t s).1.currentMessageWidth + 80)
          > -(draw tw t s).1.currentMessageWidth))
    ∧ ∀ c, c ∈ (draw tw t s).2.strip.tail →
        c = (s.Wmsg, s.ani + ((draw tw t s).1.currentMessageWidth + 80))
        ∧ 0 < c.2 + (draw tw t s).1.currentMessageWidth := by
  rw [draw_strip]
  by_cases hc : 0 ≤ s.ani ∨ s.ani + ((draw tw t s).1.currentMessageWidth + 80)
      > -(draw tw t s).1.currentMessageWidth
  · rw [if_pos hc]
    refine ⟨by simp, by simp, by simp [hc], ?_⟩
    intro c hmem
    simp only [List.tail_cons, List.mem_singleton] at hmem
    subst hmem
    refine ⟨rfl, ?_⟩
    simp only
    rcases hc with hc | hc <;> omega
  · rw [if_neg hc]
    refine ⟨by simp, by simp, by simp [hc], ?_⟩
    intro c hmem
    simp at hmem

/-- Instance of C5 amended: cursor -150, cached width 100; the second copy is
drawn at 30. -/
theorem C5_strip_copies_witness :
    (draw (fun _ => 100) 0 (cachedAt (-150))).2.strip
        = [(defaultMessage, -150), (defaultMessage, 30)]
    ∧ (draw (fun _ => 100) 0 (cachedAt (-150))).2.strip.length ≤ 2 :=
  ⟨by decide, (C5_strip_copies (fun _ => 100) 0 (cachedAt (-150)) (by decide)).1⟩

/-- C6, as stated, fails for a text of width 0.  After the wrap that made the
empty text active, the first draw measures and caches the width 0 with the
flag set, and the second draw, with nothing in between, measures again. -/
theorem C6_empty_message_measured_again :
    updateData sampleHeader emptyPending = some emptyActive
    ∧ sixPerChar emptyActive.Wmsg = 0
    ∧ (draw sixPerChar 0 emptyActive).2.measured = [[]]
    ∧ (draw sixPerChar 0 emptyActive).1.messageWidthCached = true
    ∧ (draw sixPerChar 0 emptyActive).1.currentMessageWidth = 0
    ∧ (draw sixPerChar 20 (draw sixPerChar 0 emptyActive).1).2.measured = [[]] := by
  refine ⟨by decide, by decide, by decide, by decide, by decide, by decide⟩

/-- C6, amended.  `draw` measures the active text, once, exactly when the width
is not cached or the cached width is 0.  From a state whose width is not cached
(as after a swap): the first draw measures once and caches the result; when the
result is not 0 no later draw measures; when it is 0 every later draw measures
once more, the width stays 0 and the total span is 80.  A cached width other
than 0 is kept by every operation in between except `updateScrollingBuffer`
and an `updateData` call that wraps with a text pending. -/
theorem C6_measure_policy (tw : List Char → Int) (s : WeatherDisplay F) (t : Nat)
    (ts : List Nat) (hc : s.messageWidthCached = false) :
    (draw tw t s).2.measured = [s.Wmsg]
    ∧ (draw tw t s).1.currentMessageWidth = tw s.Wmsg
    ∧ (draw tw t s).1.messageWidthCached = true
    ∧ (tw s.Wmsg ≠ 0 →
        (draws tw ts (draw tw t s).1).2.map Frame.measured = List.replicate ts.length [])
    ∧ (tw s.Wmsg = 0 →
        (draws tw ts (draw tw t s).1).2.map Frame.measured
            = List.replicate ts.length [s.Wmsg]
        ∧ (draws tw ts (draw tw t s).1).1.currentMessageWidth + 80 = 80)
    ∧ (∀ (u : WeatherDisplay F) (t1 : Nat),
        (draw tw t1 u).2.measured =
          if u.messageWidthCached = false ∨ u.currentMessageWidth = 0 then [u.Wmsg] else [])
    ∧ ∀ (H : Header) (fmt1 : F → List Char) (op : Op F) (u u1 : WeatherDisplay F),
        step H fmt1 tw op u = some u1 →
        u.messageWidthCached = true → u.currentMessageWidth ≠ 0 →
        op ≠ Op.updateScrollingBuffer →
        ¬ (op = Op.updateData ∧ wraps u ∧ u.messageUpdatePending = true) →
        u1.messageWidthCached = true ∧ u1.currentMessageWidth = u.currentMessageWidth
        ∧ u1.Wmsg = u.Wmsg := by
  obtain ⟨h1, h2, h3⟩ := draw_measures tw t s (Or.inl hc)
  have hk := (draw_keeps tw t s).1
  refine ⟨h1, h2, h3, ?_, ?_, ?_, fun H fmt1 => step_keeps_cache H fmt1 tw⟩
  · intro hne
    exact (draws_cached_nonzero tw ts _ h3 (by rw [h2]; exact hne)).1
  · intro h0
    obtain ⟨i1, i2⟩ := draws_width_zero tw ts (draw tw t s).1 (by rw [h2]; exact h0)
      (by rw [hk]; exact h0)
    rw [hk] at i1
    exact ⟨i1, by rw [i2]; rfl⟩
  · intro u t1
    by_cases hu : u.messageWidthCached = false ∨ u.currentMessageWidth = 0
    · rw [if_pos hu]
      exact (draw_measures tw t1 u hu).1
    · rw [if_neg hu]
      have hu1 : u.messageWidthCached = true := by
        cases h : u.messageWidthCached with
        | true => rfl
        | false => exact absurd (Or.inl h) hu
      exact (draw_uses_cache tw t1 u hu1 (fun h => hu (Or.inr h))).1

/-- Instance of C6 amended: the default message, not cached, drawn four times
with 6 pixels per character: measured at the first draw only. -/
theorem C6_measure_policy_witness :
    (draw sixPerChar 0 sampleState).2.measured = [defaultMessage]
    ∧ (draws sixPerChar [20, 40, 60] (draw sixPerChar 0 sampleState).1).2.map Frame.measured
        = [[], [], []] :=
  ⟨(C6_measure_policy sixPerChar sampleState 0 [20, 40, 60] rfl).1,
   (C6_measure_policy sixPerChar sampleState 0 [20, 40, 60] rfl).2.2.2.1 (by decide)⟩

/-- C7. With the scratch field `weatherData.scrollingMessage` (at least one
char) no larger than the pending buffer and than the active buffer: for every
state and every formatted text, of any length, staging returns; the pending
buffer then holds the first `sizeof(scrollingMessage) - 1` characters of the
text (the whole text when it is shorter), which with its terminator fits the
pending buffer, so a longer text is truncated; and every later run of
`updateData` calls returns, the active buffer being either as before or the
promoted text, which with its terminator fits the active buffer. -/
theorem C7_staging_truncates_without_overrun (H : Header) (fmt1 : F → List Char)
    (s : WeatherDisplay F) (hpos : 0 < H.sizeofScrollingMessage)
    (hb : H.sizeofScrollingMessage ≤ H.sizeofWmsgBuffer)
    (ha : H.sizeofScrollingMessage ≤ H.sizeofWmsg) :
    ∃ s1, updateScrollingMessage H fmt1 s = some s1
      ∧ s1.WmsgBuffer = (scrollingFormat fmt1 s.weatherData).take (H.sizeofScrollingMessage - 1)
      ∧ s1.WmsgBuffer <+: scrollingFormat fmt1 s.weatherData
      ∧ s1.WmsgBuffer.length ≤ H.sizeofWmsgBuffer - 1
      ∧ s1.WmsgBuffer.length + 1 ≤ H.sizeofWmsgBuffer
      ∧ ((scrollingFormat fmt1 s.weatherData).length < H.sizeofScrollingMessage →
          s1.WmsgBuffer = scrollingFormat fmt1 s.weatherData)
      ∧ (∀ k, ∃ sk, ticks H k s1 = some sk
          ∧ (sk.Wmsg = s.Wmsg
             ∨ (sk.Wmsg = s1.WmsgBuffer ∧ sk.Wmsg.length + 1 ≤ H.sizeofWmsg))) := by
  have hne : ¬ H.sizeofScrollingMessage = 0 := by omega
  have hlen : ((scrollingFormat fmt1 s.weatherData).take (H.sizeofScrollingMessage - 1)).length
      < H.sizeofWmsgBuffer := by
    rw [List.length_take]
    omega
  have hstage : updateScrollingMessage H fmt1 s =
      some { s with
        weatherData :=
          { s.weatherData with
            scrollingMessage :=
              (scrollingFormat fmt1 s.weatherData).take (H.sizeofScrollingMessage - 1) },
        WmsgBuffer := (scrollingFormat fmt1 s.weatherData).take (H.sizeofScrollingMessage - 1),
        messageUpdatePending := true } := by
    simp only [updateScrollingMessage, snprintf, strcpy, if_neg hne, if_pos hlen]
  refine ⟨_, hstage, rfl, List.take_prefix _ _, ?_, ?_, ?_, ?_⟩
  · simp only
    omega
  · simp only
    omega
  · intro hshort
    exact List.take_of_length_le (by omega)
  · intro k
    have hfitA : ((scrollingFormat fmt1 s.weatherData).take
        (H.sizeofScrollingMessage - 1)).length + 1 ≤ H.sizeofWmsg := by
      rw [List.length_take]
      omega
    obtain ⟨sk, hk, _, hW⟩ := ticks_promote_fits H
      ({ s with
          weatherData :=
            { s.weatherData with
              scrollingMessage :=
                (scrollingFormat fmt1 s.weatherData).take (H.sizeofScrollingMessage - 1) },
          WmsgBuffer :=
            (scrollingFormat fmt1 s.weatherData).take (H.sizeofScrollingMessage - 1),
          messageUpdatePending := true } : WeatherDisplay F) (by simp only; omega) k
    refine ⟨sk, hk, ?_⟩
    rcases hW with hW | hW
    · exact Or.inl hW
    · exact Or.inr ⟨hW, by rw [hW]; exact hfitA⟩

/-- Instance of C7: an 8 byte scratch field and 16 byte buffers; the staged text
is the first 7 characters of the message. -/
theorem C7_staging_truncates_without_overrun_witness :
    ∃ s1, updateScrollingMessage
        { sampleHeader with sizeofScrollingMessage := 8, sizeofWmsgBuffer := 16,
                            sizeofWmsg := 16 } id sampleState = some s1
      ∧ s1.WmsgBuffer = "... lig".toList := by
  obtain ⟨s1, h1, h2, _⟩ := C7_staging_truncates_without_overrun
    { sampleHeader with sizeofScrollingMessage := 8, sizeofWmsgBuffer := 16, sizeofWmsg := 16 }
    id sampleState (by decide) (by decide) (by decide)
  exact ⟨s1, h1, by rw [h2]; decide⟩

/-- C8. With a step that is not negative and a brightness in `[10, 255]`: after
`handleBrightnessButtons`, at any time and for any button states, the
brightness is in `[10, 255]`.  Past the debounce window, when only the increase
button is down the new brightness is `min (b + step) 255`, when only the
decrease button is down it is `max (b - step) 10`, and when both are down it is
`max (min (b + step) 255 - step) 10`; so a single button changes the
brightness by exactly the step when that stays within the bounds. -/
theorem C8_brightness_stays_in_range (H : Header) (s : WeatherDisplay F) (now : Nat)
    (keyLow bootLow : Bool) (hstep : 0 ≤ H.BRIGHTNESS_STEP)
    (hlo : 10 ≤ s.displayBrightness) (hhi : s.displayBrightness ≤ 255) :
    10 ≤ (handleBrightnessButtons H now keyLow bootLow s).displayBrightness
    ∧ (handleBrightnessButtons H now keyLow bootLow s).displayBrightness ≤ 255
    ∧ (¬ usub now s.lastButtonPress < H.BUTTON_DEBOUNCE_MS →
        (keyLow = true → bootLow = false →
          (handleBrightnessButtons H now keyLow bootLow s).displayBrightness
            = min (s.displayBrightness + H.BRIGHTNESS_STEP) 255)
        ∧ (keyLow = false → bootLow = true →
          (handleBrightnessButtons H now keyLow bootLow s).displayBrightness
            = max (s.displayBrightness - H.BRIGHTNESS_STEP) 10)
        ∧ (keyLow = true → bootLow = true →
          (handleBrightnessButtons H now keyLow bootLow s).displayBrightness
            = max (min (s.displayBrightness + H.BRIGHTNESS_STEP) 255 - H.BRIGHTNESS_STEP) 10)
        ∧ (keyLow = true → bootLow = false →
          s.displayBrightness + H.BRIGHTNESS_STEP ≤ 255 →
          (handleBrightnessButtons H now keyLow bootLow s).displayBrightness
            = s.displayBrightness + H.BRIGHTNESS_STEP)
        ∧ (keyLow = false → bootLow = true →
          10 ≤ s.displayBrightness - H.BRIGHTNESS_STEP →
          (handleBrightnessButtons H now keyLow bootLow s).displayBrightness
            = s.displayBrightness - H.BRIGHTNESS_STEP)) := by
  cases keyLow <;> cases bootLow <;> simp only [handleBrightnessButtons] <;>
    split_ifs <;> simp_all <;> omega

/-- Instance of C8: brightness 240, step 25, increase button down at time 1000:
the new brightness is 255. -/
theorem C8_brightness_stays_in_range_witness :
    (handleBrightnessButtons sampleHeader 1000 true false
        { sampleState with displayBrightness := 240 }).displayBrightness = 255
    ∧ 10 ≤ (handleBrightnessButtons sampleHeader 1000 true false
        { sampleState with displayBrightness := 240 }).displayBrightness :=
  ⟨by decide,
   (C8_brightness_stays_in_range sampleHeader
      ({ sampleState with displayBrightness := 240 } : WeatherDisplay (List Char))
      1000 true false (by decide) (by decide) (by decide)).1⟩

/-- C9. When the poll time minus `lastButtonPress` (32 bit unsigned) is below
`BUTTON_DEBOUNCE_MS`, `handleBrightnessButtons` returns the state as it was:
brightness, PWM writes and `lastButtonPress` included.  When a poll changes
the brightness or writes the PWM duty, `lastButtonPress` is that poll's time,
and every poll less than `BUTTON_DEBOUNCE_MS` after it changes nothing. -/
theorem C9_debounce (H : Header) (s : WeatherDisplay F) (now : Nat)
    (keyLow bootLow : Bool) :
    (usub now s.lastButtonPress < H.BUTTON_DEBOUNCE_MS →
      handleBrightnessButtons H now keyLow bootLow s = s)
    ∧ ((handleBrightnessButtons H now keyLow bootLow s).displayBrightness ≠ s.displayBrightness
        ∨ (handleBrightnessButtons H now keyLow bootLow s).ledcWrite ≠ s.ledcWrite →
      (handleBrightnessButtons H now keyLow bootLow s).lastButtonPress = now
      ∧ ∀ (now2 : Nat) (key2 boot2 : Bool), usub now2 now < H.BUTTON_DEBOUNCE_MS →
          handleBrightnessButtons H now2 key2 boot2
              (handleBrightnessButtons H now keyLow bootLow s)
            = handleBrightnessButtons H now keyLow bootLow s) := by
  have hdeb : ∀ (u : WeatherDisplay F) (t : Nat) (k b : Bool),
      usub t u.lastButtonPress < H.BUTTON_DEBOUNCE_MS →
      handleBrightnessButtons H t k b u = u := by
    intro u t k b h
    simp only [handleBrightnessButtons, if_pos h]
  refine ⟨hdeb s now keyLow bootLow, ?_⟩
  intro hchg
  have hlast : (handleBrightnessButtons H now keyLow bootLow s).lastButtonPress = now := by
    revert hchg
    simp only [handleBrightnessButtons]
    split_ifs <;> simp_all
  refine ⟨hlast, ?_⟩
  intro now2 key2 boot2 h2
  exact hdeb _ now2 key2 boot2 (by rw [hlast]; exact h2)

/-- Instance of C9: a press accepted at time 1000 raises the brightness; the
poll at time 1100, inside the 200 ms window, changes nothing. -/
theorem C9_debounce_witness :
    (handleBrightnessButtons sampleHeader 1000 true false sampleState).displayBrightness = 153
    ∧ (handleBrightnessButtons sampleHeader 1000 true false sampleState).lastButtonPress = 1000
    ∧ handleBrightnessButtons sampleHeader 1100 true false
          (handleBrightnessButtons sampleHeader 1000 true false sampleState)
        = handleBrightnessButtons sampleHeader 1000 true false sampleState :=
  ⟨by decide,
   ((C9_debounce sampleHeader sampleState 1000 true false).2 (Or.inl (by decide))).1,
   ((C9_debounce sampleHeader sampleState 1000 true false).2 (Or.inl (by decide))).2
      1100 true false (by decide)⟩

/-- C10. With the frame counter and the last report time at 0: after draws at
times below 10000 ms (fewer than `2 ^ 32`), a draw at 10000 ms is the only one
that reports; it reports the number of draws so far, itself included, divided
by 10, resets the counter to 0 and sets the last report time to 10000.  In
particular with `R` draws per second, at the times `i * 1000 / R` for `i` from
1 to `10 * R`, the report at 10 seconds is `R`.  For every state and time, a
draw increments the counter by one (modulo `2 ^ 32`); at least 10000 ms after
the last report it reports the incremented counter over 10, resets the
counter and stores the time; otherwise it reports nothing and leaves the last
report time as it was. -/
theorem C10_frame_counter_and_fps (tw : List Char → Int) (s : WeatherDisplay F)
    (ts : List Nat) (hfc : s.frameCount = 0) (hlast : s.lastPerformanceReport = 0)
    (hts : ∀ t ∈ ts, t < 10000) (hlen : ts.length + 1 < ULONG_RANGE) :
    ((draws tw (ts ++ [10000]) s).2.map Frame.report
        = List.replicate ts.length none
          ++ [some { fps := ((ts.length + 1 : Nat) : Rat) / 10, frameCount := ts.length + 1 }]
      ∧ (draws tw (ts ++ [10000]) s).1.frameCount = 0
      ∧ (draws tw (ts ++ [10000]) s).1.lastPerformanceReport = 10000)
    ∧ (∀ R : Nat, 0 < R → 10 * R < ULONG_RANGE →
        (draws tw (fixedRate R ++ [10000]) s).2.map Frame.report
          = List.replicate (10 * R - 1) none ++ [some { fps := (R : Rat), frameCount := 10 * R }]
        ∧ (draws tw (fixedRate R ++ [10000]) s).1.frameCount = 0)
    ∧ (∀ (u : WeatherDisplay F) (now : Nat),
        (u.frameCount + 1 < ULONG_RANGE → uinc u.frameCount = u.frameCount + 1)
        ∧ (10000 ≤ usub now u.lastPerformanceReport →
            (draw tw now u).2.report
              = some { fps := (uinc u.frameCount : Rat) / 10, frameCount := uinc u.frameCount }
            ∧ (draw tw now u).1.frameCount = 0
            ∧ (draw tw now u).1.lastPerformanceReport = now)
        ∧ (usub now u.lastPerformanceReport < 10000 →
            (draw tw now u).2.report = none
            ∧ (draw tw now u).1.frameCount = uinc u.frameCount
            ∧ (draw tw now u).1.lastPerformanceReport = u.lastPerformanceReport)) := by
  refine ⟨draws_then_report tw s ts hfc hlast hts hlen, ?_, ?_⟩
  · intro R hR hRlen
    have hl : (fixedRate R).length = 10 * R - 1 := by
      unfold fixedRate
      rw [List.length_map, List.length_range]
    have hlt : ∀ t ∈ fixedRate R, t < 10000 := by
      intro t ht
      unfold fixedRate at ht
      rw [List.mem_map] at ht
      obtain ⟨i, hi, rfl⟩ := ht
      rw [List.mem_range] at hi
      apply Nat.div_lt_of_lt_mul
      omega
    obtain ⟨h1, h2, _⟩ := draws_then_report tw s (fixedRate R) hfc hlast hlt
      (by rw [hl]; omega)
    refine ⟨?_, h2⟩
    rw [h1, hl]
    have h10 : 10 * R - 1 + 1 = 10 * R := by omega
    rw [h10]
    congr 4
    push_cast
    field_simp
  · intro u now
    refine ⟨?_, draw_reports tw now u, draw_quiet tw now u⟩
    intro h
    unfold uinc
    exact Nat.mod_eq_of_lt h

/-- Instance of C10: two draws per second for 10 seconds; the 20th draw, at
10000 ms, reports 20 frames, which is 2 per second, and resets the counter. -/
theorem C10_frame_counter_and_fps_witness :
    (draws sixPerChar (fixedRate 2 ++ [10000]) sampleState).2.map Frame.report
        = List.replicate 19 none ++ [some { fps := 2, frameCount := 20 }]
    ∧ (draws sixPerChar (fixedRate 2 ++ [10000]) sampleState).1.frameCount = 0 :=
  (C10_frame_counter_and_fps sixPerChar sampleState (fixedRate 2) rfl rfl
    (by decide) (by decide)).2.1 2 (by decide) (by decide)

end WeatherDisplay

end WeatherStation
